import Mathlib

/-!
Verification development for the MLIR Vector dialect header
`mlir/include/mlir/Dialect/Vector/VectorOps.h`.

The header declares the data model (`CombiningKind`, `CombiningKindAttr`,
`VectorTransformsOptions` and its enums) and the pattern-population entry
points.  `VectorTransformsOptions` and its setters are defined inline in the
header and are embedded directly from that source.  The bodies of
`CombiningKindAttr::get/print/parse` and of the `populateXPatterns`
functions live in the dialect's `.cpp` files, which are not part of this
tree; those parts are modelled from the specification and are marked as
such in their doc comments.

Layout: all definitions first, then all theorems.
-/

namespace VectorSpec

/-- Modelled from the spec: the `CombiningKind` enumeration (its defining
`.inc` file is not in the tree).  A closed enumeration of
commutative/associative combination operators: Add, Mul, Min, Max, And, Or,
Xor. -/
inductive CombiningKind where
  | add
  | mul
  | kmin
  | kmax
  | kand
  | kor
  | kxor
  deriving DecidableEq, Repr

/-- Modelled from the spec: the canonical textual token `print` emits for a
`CombiningKind` (the body of `CombiningKindAttr::print` is not in the
tree): one fixed keyword per enum value. -/
def CombiningKindAttr.printToken : CombiningKind → String
  | CombiningKind.add => "add"
  | CombiningKind.mul => "mul"
  | CombiningKind.kmin => "min"
  | CombiningKind.kmax => "max"
  | CombiningKind.kand => "and"
  | CombiningKind.kor => "or"
  | CombiningKind.kxor => "xor"

/-- Modelled from the spec: `CombiningKindAttr::parse` (body not in the
tree).  It consumes one textual token, maps a recognized keyword back to
the enum value, and fails (returns no attribute) on any other token. -/
def CombiningKindAttr.parse (tok : String) : Option CombiningKind :=
  if tok = "add" then some CombiningKind.add
  else if tok = "mul" then some CombiningKind.mul
  else if tok = "min" then some CombiningKind.kmin
  else if tok = "max" then some CombiningKind.kmax
  else if tok = "and" then some CombiningKind.kand
  else if tok = "or" then some CombiningKind.kor
  else if tok = "xor" then some CombiningKind.kxor
  else none

/-- Modelled from the spec: the IR context's uniquing table for
`CombiningKindAttr` (the `BitmaskEnumStorage`-backed uniquing lives in the
external IR infrastructure, not in the tree).  The table maps each already
interned kind to the identity of its unique attribute instance; `nextId`
supplies fresh instance identities. -/
structure MLIRContext where
  table : List (CombiningKind × Nat)
  nextId : Nat
  deriving DecidableEq, Repr

/-- The empty context: no attribute interned yet. -/
def MLIRContext.empty : MLIRContext := ⟨[], 0⟩

/-- Modelled from the spec: `CombiningKindAttr::get(kind, context)` (body
not in the tree).  Looks `kind` up in the context's uniquing table and
returns the existing instance identity, or creates and records a fresh one
on first request; returns the instance together with the updated context. -/
def CombiningKindAttr.get (kind : CombiningKind) (ctx : MLIRContext) :
    Nat × MLIRContext :=
  match ctx.table.find? (fun p => p.1 = kind) with
  | some p => (p.2, ctx)
  | none => (ctx.nextId, ⟨(kind, ctx.nextId) :: ctx.table, ctx.nextId + 1⟩)

/-- Embedded from `VectorOps.h`: enum `VectorContractLowering` controlling
the lowering of `vector.contract` (Dot = 0, Matmul = 1, OuterProduct = 2). -/
inductive VectorContractLowering where
  | Dot
  | Matmul
  | OuterProduct
  deriving DecidableEq, Repr

/-- Embedded from `VectorOps.h`: enum `VectorTransposeLowering` controlling
the lowering of `vector.transpose` (EltWise = 0, Flat = 1). -/
inductive VectorTransposeLowering where
  | EltWise
  | Flat
  deriving DecidableEq, Repr

/-- Embedded from `VectorOps.h`: enum `VectorTransferSplit` controlling the
splitting of `vector.transfer` (None = 0, VectorTransfer = 1,
LinalgCopy = 2, ForceUnmasked = 3). -/
inductive VectorTransferSplit where
  | None
  | VectorTransfer
  | LinalgCopy
  | ForceUnmasked
  deriving DecidableEq, Repr

/-- Embedded from `VectorOps.h` lines 142-164: struct
`VectorTransformsOptions`, with the in-class member initializers giving the
default-constructed field values. -/
structure VectorTransformsOptions where
  vectorContractLowering : VectorContractLowering := VectorContractLowering.Dot
  vectorTransposeLowering : VectorTransposeLowering :=
    VectorTransposeLowering.EltWise
  vectorTransferSplit : VectorTransferSplit := VectorTransferSplit.None
  deriving DecidableEq, Repr

/-- The C++ expression `VectorTransformsOptions()`: default construction,
every field taking its in-class initializer. -/
def VectorTransformsOptions.mkDefault : VectorTransformsOptions := {}

/-- Embedded from `VectorOps.h`: `setVectorTransformsOptions` assigns
`vectorContractLowering` and returns the (updated) record itself. -/
def VectorTransformsOptions.setVectorTransformsOptions
    (o : VectorTransformsOptions) (opt : VectorContractLowering) :
    VectorTransformsOptions :=
  { o with vectorContractLowering := opt }

/-- Embedded from `VectorOps.h`: `setVectorTransposeLowering` assigns
`vectorTransposeLowering` and returns the (updated) record itself. -/
def VectorTransformsOptions.setVectorTransposeLowering
    (o : VectorTransformsOptions) (opt : VectorTransposeLowering) :
    VectorTransformsOptions :=
  { o with vectorTransposeLowering := opt }

/-- Embedded from `VectorOps.h`: `setVectorTransferSplit` assigns
`vectorTransferSplit` and returns the (updated) record itself. -/
def VectorTransformsOptions.setVectorTransferSplit
    (o : VectorTransformsOptions) (opt : VectorTransferSplit) :
    VectorTransformsOptions :=
  { o with vectorTransferSplit := opt }

/-- Modelled from the spec: a rewrite-pattern instance as constructed by the
population functions (the generic pattern class is external-collaborator
infrastructure).  Each instance records the rewrite rule it implements, the
context it was built for, and — for the contraction-lowering family — the
transform options it was configured with. -/
structure RewritePattern where
  name : String
  ctx : MLIRContext
  opts : Option VectorTransformsOptions := none
  deriving DecidableEq, Repr

/-- Appending one pattern instance to the caller-supplied collection: the
model of `patterns.insert<P>(context)`. -/
def insertPattern (patterns : List RewritePattern) (p : RewritePattern) :
    List RewritePattern :=
  patterns ++ [p]

/-- Modelled from the spec: `populateVectorToVectorCanonicalizationPatterns`
(body not in the tree) appends the generic simplification patterns (fold
redundant shape casts, trivial broadcasts, no-op extracts/inserts) to the
given collection. -/
def populateVectorToVectorCanonicalizationPatterns
    (patterns : List RewritePattern) (ctx : MLIRContext) :
    List RewritePattern :=
  insertPattern
    (insertPattern (insertPattern patterns ⟨"FoldRedundantShapeCast", ctx, none⟩)
      ⟨"FoldTrivialBroadcast", ctx, none⟩)
    ⟨"FoldNoOpExtractInsert", ctx, none⟩

/-- Modelled from the spec: `populateVectorToVectorTransformationPatterns`
(body not in the tree) appends the broader structural rewrites beyond pure
canonicalization. -/
def populateVectorToVectorTransformationPatterns
    (patterns : List RewritePattern) (ctx : MLIRContext) :
    List RewritePattern :=
  insertPattern (insertPattern patterns ⟨"ShapeCastOpDecomposer", ctx, none⟩)
    ⟨"TupleGetFolder", ctx, none⟩

/-- Modelled from the spec:
`populateCastAwayVectorLeadingOneDimPatterns` (body not in the tree)
appends the leading size-1 dimension removal patterns for
read/write/insert/extract operations. -/
def populateCastAwayVectorLeadingOneDimPatterns
    (patterns : List RewritePattern) (ctx : MLIRContext) :
    List RewritePattern :=
  insertPattern
    (insertPattern
      (insertPattern
        (insertPattern patterns ⟨"CastAwayExtractLeadingOneDim", ctx, none⟩)
        ⟨"CastAwayInsertLeadingOneDim", ctx, none⟩)
      ⟨"CastAwayTransferReadLeadingOneDim", ctx, none⟩)
    ⟨"CastAwayTransferWriteLeadingOneDim", ctx, none⟩

/-- Modelled from the spec: `populateBubbleVectorBitCastOpPatterns` (body
not in the tree) appends the patterns moving `vector.bitcast` to before
insert ops or after extract ops. -/
def populateBubbleVectorBitCastOpPatterns
    (patterns : List RewritePattern) (ctx : MLIRContext) :
    List RewritePattern :=
  insertPattern (insertPattern patterns ⟨"BubbleDownBitCastForExtract", ctx, none⟩)
    ⟨"BubbleUpBitCastForInsert", ctx, none⟩

/-- Modelled from the spec: `populateVectorSlicesLoweringPatterns` (body
not in the tree) appends `ExtractSlicesOpLowering` and
`InsertSlicesOpLowering` (the two rules named in the header comment). -/
def populateVectorSlicesLoweringPatterns
    (patterns : List RewritePattern) (ctx : MLIRContext) :
    List RewritePattern :=
  insertPattern (insertPattern patterns ⟨"ExtractSlicesOpLowering", ctx, none⟩)
    ⟨"InsertSlicesOpLowering", ctx, none⟩

/-- Modelled from the spec: `populateVectorTransferLoweringPatterns` (body
not in the tree) appends the patterns lowering transfer ops to
`vector.load` / `vector.store` / `vector.broadcast`. -/
def populateVectorTransferLoweringPatterns
    (patterns : List RewritePattern) (ctx : MLIRContext) :
    List RewritePattern :=
  insertPattern
    (insertPattern patterns ⟨"TransferReadToVectorLoadLowering", ctx, none⟩)
    ⟨"TransferWriteToVectorStoreLowering", ctx, none⟩

/-- Modelled from the spec: `populateVectorContractLoweringPatterns` (body
not in the tree) appends the six rules named in the header comment;
`ContractionOpLowering` and `TransposeOpLowering` carry the
`VectorTransformsOptions` they were configured with. -/
def populateVectorContractLoweringPatterns
    (patterns : List RewritePattern) (ctx : MLIRContext)
    (vectorTransformOptions : VectorTransformsOptions) :
    List RewritePattern :=
  insertPattern
    (insertPattern
      (insertPattern
        (insertPattern
          (insertPattern
            (insertPattern patterns
              ⟨"ContractionOpLowering", ctx, some vectorTransformOptions⟩)
            ⟨"ShapeCastOp2DDownCastRewritePattern", ctx, none⟩)
          ⟨"ShapeCastOp2DUpCastRewritePattern", ctx, none⟩)
        ⟨"BroadcastOpLowering", ctx, none⟩)
      ⟨"TransposeOpLowering", ctx, some vectorTransformOptions⟩)
    ⟨"OuterproductOpLowering", ctx, none⟩

/-- A call of `populateVectorContractLoweringPatterns` that omits the
options argument: the C++ default argument
`vectorTransformOptions = VectorTransformsOptions()` is substituted
(embedded from `VectorOps.h` line 178). -/
def populateVectorContractLoweringPatternsNoOpts
    (patterns : List RewritePattern) (ctx : MLIRContext) :
    List RewritePattern :=
  populateVectorContractLoweringPatterns patterns ctx
    VectorTransformsOptions.mkDefault

/-- Modelled from the spec: a candidate operation for the split-transfer
patterns — a transfer read/write op together with the one fact the match
step inspects (whether its vector consumers/producers are extract/insert
slices ops) and the number of slices it would unroll into. -/
structure TransferOp where
  id : Nat
  isTransfer : Bool
  hasSliceUsers : Bool
  numSlices : Nat
  deriving DecidableEq, Repr

/-- Modelled from the spec: the underlying rewrite of the split-transfer
patterns — a transfer op whose consumers/producers are extract/insert
slices ops is unrolled into one smaller transfer per slice; any other op is
declined (`none`). -/
def splitTransferRewrite (op : TransferOp) : Option (List TransferOp) :=
  if op.isTransfer && op.hasSliceUsers then
    some ((List.range op.numSlices).map
      (fun i =>
        { id := op.id + i + 1, isTransfer := true, hasSliceUsers := false,
          numSlices := 1 }))
  else none

/-- Modelled from the spec: a split-transfer pattern instance as built by
`populateSplitVectorTransferPatterns`; it captures the optional
`ignoreFilter` predicate it was populated with. -/
structure SplitTransferPattern where
  name : String
  ctx : MLIRContext
  ignoreFilter : Option (TransferOp → Bool)

/-- Modelled from the spec: applying one split-transfer pattern to a
candidate op.  When an `ignoreFilter` is present and returns true for the
op, the pattern fails matching (declines, `none`) and no rewrite is
attempted; otherwise the underlying split rewrite runs.  With no filter
there is no predicate to invoke and every candidate is considered. -/
def SplitTransferPattern.matchAndRewrite (p : SplitTransferPattern)
    (op : TransferOp) : Option (List TransferOp) :=
  match p.ignoreFilter with
  | some f => if f op then none else splitTransferRewrite op
  | none => splitTransferRewrite op

/-- Appending one split-transfer pattern instance to the collection. -/
def insertSplitPattern (patterns : List SplitTransferPattern)
    (p : SplitTransferPattern) : List SplitTransferPattern :=
  patterns ++ [p]

/-- Modelled from the spec: `populateSplitVectorTransferPatterns` (body not
in the tree) appends the transfer-read and transfer-write split patterns,
both carrying the caller's optional `ignoreFilter`. -/
def populateSplitVectorTransferPatterns
    (patterns : List SplitTransferPattern) (ctx : MLIRContext)
    (ignoreFilter : Option (TransferOp → Bool)) :
    List SplitTransferPattern :=
  insertSplitPattern
    (insertSplitPattern patterns ⟨"VectorTransferReadSplit", ctx, ignoreFilter⟩)
    ⟨"VectorTransferWriteSplit", ctx, ignoreFilter⟩

/-- A call of `populateSplitVectorTransferPatterns` that omits the filter
argument: the C++ default argument `ignoreFilter = nullptr` is substituted
(embedded from `VectorOps.h` line 58). -/
def populateSplitVectorTransferPatternsNoFilter
    (patterns : List SplitTransferPattern) (ctx : MLIRContext) :
    List SplitTransferPattern :=
  populateSplitVectorTransferPatterns patterns ctx none

/-- Modelled from the spec: the scalar combination each `CombiningKind`
denotes (add, mul, min, max, bitwise and/or/xor) on the model's scalar
type. -/
def combine : CombiningKind → Nat → Nat → Nat
  | CombiningKind.add, a, b => a + b
  | CombiningKind.mul, a, b => a * b
  | CombiningKind.kmin, a, b => min a b
  | CombiningKind.kmax, a, b => max a b
  | CombiningKind.kand, a, b => a &&& b
  | CombiningKind.kor, a, b => a ||| b
  | CombiningKind.kxor, a, b => a ^^^ b

/-- A matrix in the model: entries indexed by row and column. -/
def Mat : Type := Nat → Nat → Nat

/-- Left-associated reduction of the values `f 0, …, f kLast` under a
combining kind: the accumulation order of the progressive (`Dot`)
decomposition, which combines each new term into the running value. -/
def reduceLeft (kind : CombiningKind) (f : Nat → Nat) : Nat → Nat
  | 0 => f 0
  | k + 1 => combine kind (reduceLeft kind f k) (f (k + 1))

/-- Right-associated reduction of the values `f 0, …, f kLast`: the
reduction order of the flat `vector.matrix_multiply` primitive in the
model. -/
def reduceRight (kind : CombiningKind) (f : Nat → Nat) : Nat → Nat
  | 0 => f 0
  | k + 1 => combine kind (f 0) (reduceRight kind (fun i => f (i + 1)) k)

/-- A rank-1 dot product under a combining kind: elementwise products of
the two extracted vectors, reduced left-to-right. -/
def dotOp (kind : CombiningKind) (u v : Nat → Nat) (kLast : Nat) : Nat :=
  reduceLeft kind (fun k => u k * v k) kLast

/-- Modelled from the spec: the `Dot` contraction lowering — each result
element is produced by extracting row `i` of `A` and column `j` of `B` and
taking their dot product (`A` is `m × K`, `B` is `K × n`, the contracted
index runs over `0, …, kLast`). -/
def lowerContractDot (kind : CombiningKind) (A B : Mat) (kLast : Nat) : Mat :=
  fun i j => dotOp kind (fun k => A i k) (fun k => B k j) kLast

/-- Modelled from the spec: the `Matmul` contraction lowering — a single
matrix-multiply primitive computing every result element directly, with the
primitive's own (right-associated) reduction over the contracted index. -/
def lowerContractMatmul (kind : CombiningKind) (A B : Mat) (kLast : Nat) :
    Mat :=
  fun i j => reduceRight kind (fun k => A i k * B k j) kLast

/-- The rank-1 outer product of a column vector and a row vector. -/
def outerProductOp (u v : Nat → Nat) : Mat :=
  fun i j => u i * v j

/-- Combining two whole matrices elementwise under a kind. -/
def matCombine (kind : CombiningKind) (M N : Mat) : Mat :=
  fun i j => combine kind (M i j) (N i j)

/-- Modelled from the spec: the `OuterProduct` contraction lowering — one
rank-1 outer product per contracted index `k` (column `k` of `A` with row
`k` of `B`), accumulated matrix-by-matrix with the combining kind. -/
def lowerContractOuterProduct (kind : CombiningKind) (A B : Mat) :
    Nat → Mat
  | 0 => outerProductOp (fun i => A i 0) (fun j => B 0 j)
  | k + 1 =>
      matCombine kind (lowerContractOuterProduct kind A B k)
        (outerProductOp (fun i => A i (k + 1)) (fun j => B (k + 1) j))

/-- The list of match results the populated split-transfer patterns give on
one candidate op. -/
def matchResults (ps : List SplitTransferPattern) (op : TransferOp) :
    List (Option (List TransferOp)) :=
  ps.map (fun p => p.matchAndRewrite op)

/-- A concrete ignore-filter that opts every candidate out. -/
def alwaysIgnore : TransferOp → Bool := fun _ => true

/-!  Theorems. -/

/-- Every combining kind denotes an associative scalar operation. -/
theorem combine_assoc (kind : CombiningKind) (a b c : Nat) :
    combine kind (combine kind a b) c = combine kind a (combine kind b c) := by
  cases kind <;>
    simp [combine, Nat.add_assoc, Nat.mul_assoc, min_assoc, max_assoc,
      Nat.land_assoc, Nat.lor_assoc, Nat.xor_assoc]

/-- Peeling the first term off a left-associated reduction. -/
theorem reduceLeft_succ (kind : CombiningKind) (f : Nat → Nat) (k : Nat) :
    reduceLeft kind f (k + 1) =
      combine kind (f 0) (reduceLeft kind (fun i => f (i + 1)) k) := by
  induction k with
  | zero => rfl
  | succ k ih =>
      calc reduceLeft kind f (k + 2)
          = combine kind (reduceLeft kind f (k + 1)) (f (k + 2)) := rfl
        _ = combine kind
              (combine kind (f 0) (reduceLeft kind (fun i => f (i + 1)) k))
              (f (k + 2)) := by rw [ih]
        _ = combine kind (f 0)
              (combine kind (reduceLeft kind (fun i => f (i + 1)) k)
                (f (k + 2))) := combine_assoc kind _ _ _
        _ = combine kind (f 0)
              (reduceLeft kind (fun i => f (i + 1)) (k + 1)) := rfl

/-- Left- and right-associated reductions of the same terms agree, by
associativity of every combining kind. -/
theorem reduceLeft_eq_reduceRight (kind : CombiningKind) (k : Nat)
    (f : Nat → Nat) : reduceLeft kind f k = reduceRight kind f k := by
  induction k generalizing f with
  | zero => rfl
  | succ k ih =>
      rw [reduceLeft_succ kind f k, ih (fun i => f (i + 1))]
      rfl

/-- The outer-product accumulation evaluated at one entry is the
left-associated reduction of that entry's products. -/
theorem lowerContractOuterProduct_entry (kind : CombiningKind) (A B : Mat)
    (k i j : Nat) :
    lowerContractOuterProduct kind A B k i j =
      reduceLeft kind (fun t => A i t * B t j) k := by
  induction k with
  | zero => rfl
  | succ k ih =>
      show combine kind (lowerContractOuterProduct kind A B k i j) _ = _
      rw [ih]
      rfl

/-- C1: for every CombiningKind value `k`, parsing the printed form of the
attribute for `k` yields back exactly `k`. -/
theorem parse_printToken_roundTrip (k : CombiningKind) :
    CombiningKindAttr.parse (CombiningKindAttr.printToken k) = some k := by
  cases k <;> rfl

/-- C2: interning law.  After `get(k, ctx)` returns an attribute instance,
calling `get(k, ·)` again on the resulting context returns the identical
instance and leaves the context unchanged: at most one instance per kind
per context. -/
theorem get_interning (k : CombiningKind) (ctx : MLIRContext) :
    CombiningKindAttr.get k (CombiningKindAttr.get k ctx).2 =
      ((CombiningKindAttr.get k ctx).1, (CombiningKindAttr.get k ctx).2) := by
  unfold CombiningKindAttr.get
  cases hfind : ctx.table.find? (fun p => p.1 = k) with
  | some p => simp only [hfind]
  | none => simp [List.find?]

/-- C3: for every input token that is not one of the recognized
CombiningKind keywords, `CombiningKindAttr::parse` fails and produces no
attribute; it never falls back to a default kind. -/
theorem parse_unrecognized_fails (tok : String)
    (h : ∀ k : CombiningKind, CombiningKindAttr.printToken k ≠ tok) :
    CombiningKindAttr.parse tok = none := by
  have hadd := h CombiningKind.add
  have hmul := h CombiningKind.mul
  have hmin := h CombiningKind.kmin
  have hmax := h CombiningKind.kmax
  have hand := h CombiningKind.kand
  have hor := h CombiningKind.kor
  have hxor := h CombiningKind.kxor
  simp only [CombiningKindAttr.printToken] at hadd hmul hmin hmax hand hor hxor
  unfold CombiningKindAttr.parse
  have nadd : ¬ tok = "add" := fun he => hadd he.symm
  have nmul : ¬ tok = "mul" := fun he => hmul he.symm
  have nmin : ¬ tok = "min" := fun he => hmin he.symm
  have nmax : ¬ tok = "max" := fun he => hmax he.symm
  have nand : ¬ tok = "and" := fun he => hand he.symm
  have nor : ¬ tok = "or" := fun he => hor he.symm
  have nxor : ¬ tok = "xor" := fun he => hxor he.symm
  simp [nadd, nmul, nmin, nmax, nand, nor, nxor]

/-- Witness for C3: the concrete token "bogus" is not a recognized keyword
and parsing it fails. -/
theorem parse_unrecognized_fails_witness :
    CombiningKindAttr.parse "bogus" = none :=
  parse_unrecognized_fails "bogus" (by intro k; cases k <;> decide)

/-- C4: the `Dot`, `Matmul` and `OuterProduct` contraction lowerings are
semantically equivalent — on the same input matrices and the same declared
CombiningKind their (structurally different) operation trees compute the
same result at every output entry. -/
theorem contractLowerings_equivalent (kind : CombiningKind) (A B : Mat)
    (kLast i j : Nat) :
    lowerContractMatmul kind A B kLast i j =
        lowerContractDot kind A B kLast i j ∧
      lowerContractOuterProduct kind A B kLast i j =
        lowerContractDot kind A B kLast i j := by
  constructor
  · show reduceRight kind (fun k => A i k * B k j) kLast = _
    rw [← reduceLeft_eq_reduceRight]
    rfl
  · rw [lowerContractOuterProduct_entry]
    rfl

/-- C5: a default-constructed `VectorTransformsOptions` has
`vectorContractLowering = Dot`, `vectorTransposeLowering = EltWise` and
`vectorTransferSplit = None`. -/
theorem mkDefault_fields :
    VectorTransformsOptions.mkDefault.vectorContractLowering =
        VectorContractLowering.Dot ∧
      VectorTransformsOptions.mkDefault.vectorTransposeLowering =
        VectorTransposeLowering.EltWise ∧
      VectorTransformsOptions.mkDefault.vectorTransferSplit =
        VectorTransferSplit.None :=
  ⟨rfl, rfl, rfl⟩

/-- C6: each builder-style setter yields the record it was called on with
only its own field set to the given value and the other two fields
unchanged, so chained configuration composes. -/
theorem setters_frame (o : VectorTransformsOptions)
    (c : VectorContractLowering) (t : VectorTransposeLowering)
    (s : VectorTransferSplit) :
    (o.setVectorTransformsOptions c).vectorContractLowering = c ∧
      (o.setVectorTransformsOptions c).vectorTransposeLowering =
        o.vectorTransposeLowering ∧
      (o.setVectorTransformsOptions c).vectorTransferSplit =
        o.vectorTransferSplit ∧
      (o.setVectorTransposeLowering t).vectorTransposeLowering = t ∧
      (o.setVectorTransposeLowering t).vectorContractLowering =
        o.vectorContractLowering ∧
      (o.setVectorTransposeLowering t).vectorTransferSplit =
        o.vectorTransferSplit ∧
      (o.setVectorTransferSplit s).vectorTransferSplit = s ∧
      (o.setVectorTransferSplit s).vectorContractLowering =
        o.vectorContractLowering ∧
      (o.setVectorTransferSplit s).vectorTransposeLowering =
        o.vectorTransposeLowering :=
  ⟨rfl, rfl, rfl, rfl, rfl, rfl, rfl, rfl, rfl⟩

/-- C7: every pattern-population function only appends to the caller's
collection, and what it appends is exactly what a call on a fresh empty set
with the same context (and same extra options) produces — populating is
deterministic, append-only, and has no other effect in the model. -/
theorem populatePatterns_append_deterministic
    (patterns : List RewritePattern)
    (splitPatterns : List SplitTransferPattern) (ctx : MLIRContext)
    (opts : VectorTransformsOptions) (f : Option (TransferOp → Bool)) :
    populateVectorToVectorCanonicalizationPatterns patterns ctx =
        patterns ++ populateVectorToVectorCanonicalizationPatterns [] ctx ∧
      populateVectorToVectorTransformationPatterns patterns ctx =
        patterns ++ populateVectorToVectorTransformationPatterns [] ctx ∧
      populateCastAwayVectorLeadingOneDimPatterns patterns ctx =
        patterns ++ populateCastAwayVectorLeadingOneDimPatterns [] ctx ∧
      populateBubbleVectorBitCastOpPatterns patterns ctx =
        patterns ++ populateBubbleVectorBitCastOpPatterns [] ctx ∧
      populateVectorSlicesLoweringPatterns patterns ctx =
        patterns ++ populateVectorSlicesLoweringPatterns [] ctx ∧
      populateVectorTransferLoweringPatterns patterns ctx =
        patterns ++ populateVectorTransferLoweringPatterns [] ctx ∧
      populateVectorContractLoweringPatterns patterns ctx opts =
        patterns ++ populateVectorContractLoweringPatterns [] ctx opts ∧
      populateSplitVectorTransferPatterns splitPatterns ctx f =
        splitPatterns ++ populateSplitVectorTransferPatterns [] ctx f := by
  refine ⟨?_, ?_, ?_, ?_, ?_, ?_, ?_, ?_⟩ <;>
    simp [populateVectorToVectorCanonicalizationPatterns,
      populateVectorToVectorTransformationPatterns,
      populateCastAwayVectorLeadingOneDimPatterns,
      populateBubbleVectorBitCastOpPatterns,
      populateVectorSlicesLoweringPatterns,
      populateVectorTransferLoweringPatterns,
      populateVectorContractLoweringPatterns,
      populateSplitVectorTransferPatterns, insertPattern, insertSplitPattern]

/-- C8: for the split-transfer patterns populated with an `ignoreFilter`,
every candidate operation on which the filter returns true is declined by
both populated patterns (match fails, the operation stays unrewritten). -/
theorem splitIgnoreFilter_declines (f : TransferOp → Bool)
    (ctx : MLIRContext) (op : TransferOp) (h : f op = true) :
    matchResults (populateSplitVectorTransferPatterns [] ctx (some f)) op =
      [none, none] := by
  simp [matchResults, populateSplitVectorTransferPatterns, insertSplitPattern,
    SplitTransferPattern.matchAndRewrite, h]

/-- Witness for C8: with the concrete always-true filter, a concrete
candidate transfer op (which the unfiltered rewrite would split) is
declined by both populated patterns. -/
theorem splitIgnoreFilter_declines_witness :
    matchResults
        (populateSplitVectorTransferPatterns [] MLIRContext.empty
          (some alwaysIgnore))
        ⟨0, true, true, 2⟩ =
      [none, none] :=
  splitIgnoreFilter_declines alwaysIgnore MLIRContext.empty
    ⟨0, true, true, 2⟩ rfl

/-- C9: calling `populateVectorContractLoweringPatterns` without the
options argument substitutes the C++ default argument and is equivalent to
passing an explicitly default-constructed `VectorTransformsOptions`
(Dot contraction lowering, EltWise transpose lowering, no transfer split):
the same pattern set results. -/
theorem populateContract_defaultArg (patterns : List RewritePattern)
    (ctx : MLIRContext) :
    populateVectorContractLoweringPatternsNoOpts patterns ctx =
      populateVectorContractLoweringPatterns patterns ctx
        ⟨VectorContractLowering.Dot, VectorTransposeLowering.EltWise,
          VectorTransferSplit.None⟩ :=
  rfl

/-- C10: when `populateSplitVectorTransferPatterns` is called without an
`ignoreFilter` (the default null predicate), no candidate is opted out:
on every candidate op both populated patterns behave exactly as the
unfiltered split rewrite, and there is no predicate to invoke. -/
theorem splitNoFilter_considersAll (ctx : MLIRContext) (op : TransferOp) :
    matchResults (populateSplitVectorTransferPatternsNoFilter [] ctx) op =
      [splitTransferRewrite op, splitTransferRewrite op] :=
  rfl

end VectorSpec
